import Mathlib

/-!
Verification development for the `url` repository, a thin synchronous HTTP
client facade over libcurl (sources: src/url.cxx, the module implementation
version 0.0.3; src/url.cpp, the legacy version 0.0.1 implementation; and the
library header declaring response_t with and_then / or_else).

Modelling conventions: C++ byte strings are lists of characters; the libcurl
transfer engine is external, so one performed transfer is represented by an
explicit outcome record (the CURLcode returned by curl_easy_perform, the data
the engine handed to the write and header callbacks while the transfer ran,
and the values later read back through curl_easy_getinfo), and the engine URL
parser used by encode_url is an oracle function returning the normalized URL
on success and nothing on rejection.  The per-thread curl context
(curl_thread_local in the source) is threaded through the operations as an
explicit state record.
-/

namespace url

/-- Byte strings of the C++ code, modelled as lists of characters. -/
abbrev Str := List Char

/-- CURLcode 0: clean success of curl_easy_perform. -/
def CURLE_OK : Nat := 0

/-- CURLcode 22: the flagged HTTP-error outcome produced because the code sets
CURLOPT_FAILONERROR. -/
def CURLE_HTTP_RETURNED_ERROR : Nat := 22

/-- Protocol bit for HTTP (curl.h value 1). -/
def CURLPROTO_HTTP : Nat := 1

/-- Protocol bit for HTTPS (curl.h value 2). -/
def CURLPROTO_HTTPS : Nat := 2

/-- Options stored on the reusable easy handle.  A none or false field is the
default of a freshly initialized handle (no protocol restriction, no custom
request method, no attached payload or header list). -/
structure CurlOpts where
  url : Str := []
  protocols : Option Nat := none
  followlocation : Bool := false
  failonerror : Bool := false
  useragent : Option Str := none
  httpheader : Option (List Str) := none
  nobody : Bool := false
  customrequest : Option Str := none
  postfields : Option Str := none
  mimepost : Option (List (Str × Str)) := none
deriving Repr, DecidableEq, Inhabited

/-- Per-thread curl context (curl_thread_local in the source): the owned
request-header slist, the response-header accumulator, and the easy handle
with its current options. -/
structure curl_thread_local where
  header_chunk : List Str := []
  response_headers : List Str := []
  opts : CurlOpts := {}
deriving Repr, DecidableEq, Inhabited

/-- Freshly constructed per-thread context: null slist, empty accumulator,
fresh easy handle. -/
def fresh_context : curl_thread_local := {}

/-- One curl_easy_perform execution as observed through the libcurl API: the
returned CURLcode, the chunks delivered to the write callback and the lines
delivered to the header callback while the transfer ran, and the response
code and effective URL later read back with curl_easy_getinfo. -/
structure EngineOutcome where
  code : Nat
  response_code : Nat := 0
  body_chunks : List Str := []
  header_lines : List Str := []
  effective_url : Option Str := none
deriving Repr, DecidableEq

/-- Response value type (response_t in the source); field initializers give
the default-constructed value. -/
structure response_t where
  status_code : Nat := 0
  headers : List Str := []
  body : Str := []
  encoding : Str := []
  url : Str := []
deriving Repr, DecidableEq, Inhabited

/-- Conversion of response_t to bool: status_code at least 100 and below
400. -/
def response_t.toBool (r : response_t) : Bool :=
  decide (100 ≤ r.status_code) && decide (r.status_code < 400)

/-- and_then of response_t (library header): when the bool conversion holds,
invoke f on the response; otherwise produce a value-initialized object of the
result type, modelled by the Inhabited default. -/
def response_t.and_then {β : Type} [Inhabited β] (r : response_t) (f : response_t → β) : β :=
  if r.toBool then f r else default

/-- or_else of response_t (library header): when the bool conversion holds,
keep the response unchanged; otherwise invoke f with no arguments. -/
def response_t.or_else (r : response_t) (f : Unit → response_t) : response_t :=
  if r.toBool then r else f ()

/-- Trailing-terminator strip performed by header_callback: when the stored
line ends with carriage-return line-feed, two pop_back calls remove exactly
those two characters. -/
def strip_crlf (s : Str) : Str :=
  if ['\r', '\n'].isSuffixOf s then s.dropLast.dropLast else s

/-- header_callback of the source: emplace the delivered line at the back of
the accumulator, then strip a trailing carriage-return line-feed from that
new entry. -/
def header_callback (acc : List Str) (buffer : Str) : List Str :=
  acc ++ [strip_crlf buffer]

/-- Growable-buffer accumulation of write_user_data: each delivered chunk is
appended to the buffer, so the final contents are the concatenation of the
chunks in delivery order. -/
def accumulate_body (chunks : List Str) : Str :=
  chunks.foldl (fun a c => a ++ c) []

/-- Lowercased copy of a header line, as built by the std::ranges::transform
over tolower in request() of url.cxx. -/
def lowerStr (s : Str) : Str := s.map Char.toLower

/-- Content-type search predicate of request() in url.cxx: lowercase the line
and test whether it starts with the thirteen characters of the header
name followed by a colon. -/
def isContentType (h : Str) : Bool :=
  ("content-type:".data).isPrefixOf (lowerStr h)

/-- std::string::rfind of a pattern: the highest index at which the pattern
occurs, if any. -/
def rfindSub (s pat : Str) : Option Nat :=
  (((List.range (s.length + 1)).filter (fun i => pat.isPrefixOf (s.drop i)))).getLast?

/-- std::string::find of one character starting at a given position: the
lowest occurrence index not below the start, if any. -/
def findCharFrom (s : Str) (c : Char) (start : Nat) : Option Nat :=
  (((List.range s.length)).filter
    (fun i => decide (start ≤ i) && ((s.drop i).head? == some c))).head?

/-- Charset extraction of request() in url.cxx: rfind the eight characters of
the charset key with its equals sign, then find the next semicolon and call
substr with the position just after the key and, as the second argument, the
value returned by find.  Note that substr's second argument is a character
count, and the code passes the semicolon's absolute index as that count (or
npos, taking the rest of the line, when no semicolon follows). -/
def charsetOf (ct : Str) : Str :=
  match rfindSub ct ("charset=".data) with
  | none => []
  | some first =>
    match findCharFrom ct ';' first with
    | none => ct.drop (first + 8)
    | some last => (ct.drop (first + 8)).take last

/-- Encoding field assembly of request() in url.cxx: find the first header
whose lowercased line starts with the content-type name, then apply the
charset extraction; the encoding stays empty when the header or the charset
key is absent. -/
def response_encoding (headers : List Str) : Str :=
  match headers.find? isContentType with
  | none => []
  | some ct => charsetOf ct

/-- request() of url.cxx: install the write callback on a fresh body buffer,
clear the response-header accumulator, install the header callback, perform
the transfer, and populate a response only when curl_easy_perform returned
CURLE_OK or CURLE_HTTP_RETURNED_ERROR; every other CURLcode leaves the
default-initialized response untouched.  On a populated response the header
vector is moved out of the thread context, leaving it empty. -/
def request (e : EngineOutcome) (st : curl_thread_local) : response_t × curl_thread_local :=
  let chunk := accumulate_body e.body_chunks
  let rh := e.header_lines.foldl header_callback []
  let st1 : curl_thread_local := { st with response_headers := rh }
  if e.code = CURLE_OK ∨ e.code = CURLE_HTTP_RETURNED_ERROR then
    ({ status_code := e.response_code
       headers := st1.response_headers
       body := chunk
       encoding := response_encoding st1.response_headers
       url := e.effective_url.getD [] },
     { st1 with response_headers := [] })
  else
    ({}, st1)

/-- encode_url of url.cxx: hand the string to the engine URL parser with the
default-scheme and percent-encoding flags; on success use the normalized
result, otherwise keep the caller's string unchanged.  The engine parser is
passed in as the oracle p. -/
def encode_url (p : Str → Option Str) (u : Str) : Str :=
  match p u with
  | some encoded => encoded
  | none => u

/-- set_url_options of url.cxx: store the best-effort normalized URL and set
CURLOPT_PROTOCOLS to HTTP and HTTPS, CURLOPT_FOLLOWLOCATION and
CURLOPT_FAILONERROR. -/
def set_url_options (p : Str → Option Str) (u : Str) (st : curl_thread_local) : curl_thread_local :=
  { st with opts := { st.opts with
      url := encode_url p u
      protocols := some (CURLPROTO_HTTP ||| CURLPROTO_HTTPS)
      followlocation := true
      failonerror := true } }

/-- set_headers of url.cxx: set the fixed user agent unconditionally; when
the caller supplied header lines, append each to the thread-owned slist with
curl_slist_append and attach the grown slist as CURLOPT_HTTPHEADER.  The
slist is freed only by the context destructor. -/
def set_headers (headers : List Str) (st : curl_thread_local) : curl_thread_local :=
  let st1 : curl_thread_local :=
    { st with opts := { st.opts with useragent := some ("libcurl-agent/1.0".data) } }
  if headers = [] then st1
  else
    { st1 with
      header_chunk := st1.header_chunk ++ headers
      opts := { st1.opts with httpheader := some (st1.header_chunk ++ headers) } }

/-- get of url.cxx. -/
def get (p : Str → Option Str) (u : Str) (headers : List Str) (e : EngineOutcome)
    (st : curl_thread_local) : response_t × curl_thread_local :=
  request e (set_headers headers (set_url_options p u st))

/-- head of url.cxx: additionally sets CURLOPT_NOBODY. -/
def head (p : Str → Option Str) (u : Str) (headers : List Str) (e : EngineOutcome)
    (st : curl_thread_local) : response_t × curl_thread_local :=
  let st1 := set_url_options p u st
  let st2 : curl_thread_local := { st1 with opts := { st1.opts with nobody := true } }
  request e (set_headers headers st2)

/-- update of url.cxx, the common implementation of put, patch and del: set
the URL options, set CURLOPT_CUSTOMREQUEST to the method name, set the
headers and, only when a body was supplied, set CURLOPT_POSTFIELDS. -/
def update (p : Str → Option Str) (u : Str) (method : Str) (body : Str)
    (headers : List Str) (e : EngineOutcome) (st : curl_thread_local) :
    response_t × curl_thread_local :=
  let st1 := set_url_options p u st
  let st2 : curl_thread_local := { st1 with opts := { st1.opts with customrequest := some method } }
  let st3 := set_headers headers st2
  let st4 : curl_thread_local :=
    if body = [] then st3
    else { st3 with opts := { st3.opts with postfields := some body } }
  request e st4

/-- del of url.cxx. -/
def del (p : Str → Option Str) (u body : Str) (headers : List Str) (e : EngineOutcome)
    (st : curl_thread_local) : response_t × curl_thread_local :=
  update p u ("DELETE".data) body headers e st

/-- patch of url.cxx. -/
def patch (p : Str → Option Str) (u body : Str) (headers : List Str) (e : EngineOutcome)
    (st : curl_thread_local) : response_t × curl_thread_local :=
  update p u ("PATCH".data) body headers e st

/-- put of url.cxx. -/
def put (p : Str → Option Str) (u body : Str) (headers : List Str) (e : EngineOutcome)
    (st : curl_thread_local) : response_t × curl_thread_local :=
  update p u ("PUT".data) body headers e st

/-- post of url.cxx, raw-body overload: sets CURLOPT_POSTFIELDS to the body
unconditionally. -/
def post (p : Str → Option Str) (u body : Str) (headers : List Str) (e : EngineOutcome)
    (st : curl_thread_local) : response_t × curl_thread_local :=
  let st1 := set_headers headers (set_url_options p u st)
  let st2 : curl_thread_local := { st1 with opts := { st1.opts with postfields := some body } }
  request e st2

/-- post of url.cxx, form overload: builds a mime structure with one part per
field and sets CURLOPT_MIMEPOST. -/
def post_form (p : Str → Option Str) (u : Str) (form : List (Str × Str))
    (headers : List Str) (e : EngineOutcome) (st : curl_thread_local) :
    response_t × curl_thread_local :=
  let st1 := set_headers headers (set_url_options p u st)
  let st2 : curl_thread_local := { st1 with opts := { st1.opts with mimepost := some form } }
  request e st2

namespace urlcpp

/-- Option configuration performed by get in src/url.cpp (the legacy version
0.0.1 implementation), up to the curl_easy_perform call: CURLOPT_URL receives
the caller's string verbatim (no normalization step exists there), then
CURLOPT_FOLLOWLOCATION, CURLOPT_FAILONERROR, CURLOPT_USERAGENT and, for a
non-empty header list, the appended slist as CURLOPT_HTTPHEADER.  No
statement in that function sets CURLOPT_PROTOCOLS, so the handle keeps the
engine default. -/
def get_config (u : Str) (headers : List Str) (st : curl_thread_local) : curl_thread_local :=
  let st1 : curl_thread_local := { st with opts := { st.opts with
      url := u
      followlocation := true
      failonerror := true
      useragent := some ("libcurl-agent/1.0".data) } }
  if headers = [] then st1
  else
    { st1 with
      header_chunk := st1.header_chunk ++ headers
      opts := { st1.opts with httpheader := some (st1.header_chunk ++ headers) } }

end urlcpp

/-! Helper lemmas shared by the claim theorems. -/

/-- Folding header_callback over delivered lines appends their stripped forms
in delivery order. -/
theorem foldl_header_callback (lines : List Str) (acc : List Str) :
    lines.foldl header_callback acc = acc ++ lines.map strip_crlf := by
  induction lines generalizing acc with
  | nil => simp
  | cons l ls ih => simp [header_callback, ih]

/-- request never changes the handle options. -/
theorem request_opts (e : EngineOutcome) (st : curl_thread_local) :
    (request e st).2.opts = st.opts := by
  simp only [request]
  split <;> rfl

/-- request on a CURLcode that is neither CURLE_OK nor
CURLE_HTTP_RETURNED_ERROR returns the default response. -/
theorem request_fail (e : EngineOutcome) (st : curl_thread_local)
    (h1 : e.code ≠ CURLE_OK) (h2 : e.code ≠ CURLE_HTTP_RETURNED_ERROR) :
    (request e st).1 = ({} : response_t) := by
  simp only [request]
  rw [if_neg (not_or.mpr ⟨h1, h2⟩)]

/-- request on an inspectable CURLcode assembles the headers from the second
transfer's delivered lines only. -/
theorem request_fst_headers (e : EngineOutcome) (st : curl_thread_local)
    (h : e.code = CURLE_OK ∨ e.code = CURLE_HTTP_RETURNED_ERROR) :
    ((request e st).1).headers = e.header_lines.map strip_crlf := by
  simp only [request, foldl_header_callback, List.nil_append]
  rw [if_pos h]

/-- request on an inspectable CURLcode assembles the body from the delivered
chunks only. -/
theorem request_fst_body (e : EngineOutcome) (st : curl_thread_local)
    (h : e.code = CURLE_OK ∨ e.code = CURLE_HTTP_RETURNED_ERROR) :
    ((request e st).1).body = accumulate_body e.body_chunks := by
  simp only [request, foldl_header_callback, List.nil_append]
  rw [if_pos h]

/-- set_headers leaves the protocol restriction unchanged. -/
theorem set_headers_protocols (hs : List Str) (st : curl_thread_local) :
    (set_headers hs st).opts.protocols = st.opts.protocols := by
  simp only [set_headers]
  split <;> rfl

/-- set_headers leaves the NOBODY flag unchanged. -/
theorem set_headers_nobody (hs : List Str) (st : curl_thread_local) :
    (set_headers hs st).opts.nobody = st.opts.nobody := by
  simp only [set_headers]
  split <;> rfl

/-- set_headers leaves the custom request method unchanged. -/
theorem set_headers_customrequest (hs : List Str) (st : curl_thread_local) :
    (set_headers hs st).opts.customrequest = st.opts.customrequest := by
  simp only [set_headers]
  split <;> rfl

/-- set_headers leaves the attached payload unchanged. -/
theorem set_headers_postfields (hs : List Str) (st : curl_thread_local) :
    (set_headers hs st).opts.postfields = st.opts.postfields := by
  simp only [set_headers]
  split <;> rfl

/-- get leaves the NOBODY flag unchanged. -/
theorem get_opts_nobody (p : Str → Option Str) (u : Str) (hs : List Str)
    (e : EngineOutcome) (st : curl_thread_local) :
    (get p u hs e st).2.opts.nobody = st.opts.nobody := by
  simp [get, request_opts, set_headers_nobody, set_url_options]

/-- get leaves the custom request method unchanged. -/
theorem get_opts_customrequest (p : Str → Option Str) (u : Str) (hs : List Str)
    (e : EngineOutcome) (st : curl_thread_local) :
    (get p u hs e st).2.opts.customrequest = st.opts.customrequest := by
  simp [get, request_opts, set_headers_customrequest, set_url_options]

/-- get leaves the attached payload unchanged. -/
theorem get_opts_postfields (p : Str → Option Str) (u : Str) (hs : List Str)
    (e : EngineOutcome) (st : curl_thread_local) :
    (get p u hs e st).2.opts.postfields = st.opts.postfields := by
  simp [get, request_opts, set_headers_postfields, set_url_options]

/-- head sets the NOBODY flag and never unsets it. -/
theorem head_opts_nobody (p : Str → Option Str) (u : Str) (hs : List Str)
    (e : EngineOutcome) (st : curl_thread_local) :
    (head p u hs e st).2.opts.nobody = true := by
  simp [head, request_opts, set_headers_nobody]

/-- post leaves the NOBODY flag unchanged. -/
theorem post_opts_nobody (p : Str → Option Str) (u b : Str) (hs : List Str)
    (e : EngineOutcome) (st : curl_thread_local) :
    (post p u b hs e st).2.opts.nobody = st.opts.nobody := by
  simp [post, request_opts, set_headers_nobody, set_url_options]

/-- post leaves the custom request method unchanged. -/
theorem post_opts_customrequest (p : Str → Option Str) (u b : Str) (hs : List Str)
    (e : EngineOutcome) (st : curl_thread_local) :
    (post p u b hs e st).2.opts.customrequest = st.opts.customrequest := by
  simp [post, request_opts, set_headers_customrequest, set_url_options]

/-- post attaches its body as the payload option. -/
theorem post_opts_postfields (p : Str → Option Str) (u b : Str) (hs : List Str)
    (e : EngineOutcome) (st : curl_thread_local) :
    (post p u b hs e st).2.opts.postfields = some b := by
  simp [post, request_opts]

/-- update sets the custom request method in both body branches. -/
theorem update_opts_customrequest (p : Str → Option Str) (u m b : Str) (hs : List Str)
    (e : EngineOutcome) (st : curl_thread_local) :
    (update p u m b hs e st).2.opts.customrequest = some m := by
  simp only [update, request_opts]
  split <;> simp [set_headers_customrequest]

/-- update keeps the protocol restriction made by set_url_options. -/
theorem update_opts_protocols (p : Str → Option Str) (u m b : Str) (hs : List Str)
    (e : EngineOutcome) (st : curl_thread_local) :
    (update p u m b hs e st).2.opts.protocols =
      some (CURLPROTO_HTTP ||| CURLPROTO_HTTPS) := by
  simp only [update, request_opts]
  split <;> simp [set_headers_protocols, set_url_options]

/-! Claim theorems. -/

/-- C1: the charset extraction passes the semicolon's absolute index as the
count argument of substr, so when a parameter follows the charset value the
encoding runs past the semicolon instead of stopping before it; the claimed
value "UTF-8" is not produced.  The third conjunct shows the claim's own
example (no semicolon after the value, mixed-case header name) does come out
as "UTF-8". -/
theorem C1_charset_extraction_overruns :
    response_encoding [("content-type: text/html; charset=UTF-8; boundary=x".data)] =
      ("UTF-8; boundary=x".data) ∧
    response_encoding [("content-type: text/html; charset=UTF-8; boundary=x".data)] ≠
      ("UTF-8".data) ∧
    response_encoding [("Content-Type: text/html; charset=UTF-8".data)] = ("UTF-8".data) := by
  decide

/-- C2 counterexample: after a first call supplying one header line, a second
call supplying a different line attaches a list that still contains the first
call's entry, refuting that the attached list holds exactly the lines
supplied to that call. -/
theorem C2_counterexample :
    (set_headers [("B: 2".data)] (set_headers [("A: 1".data)] fresh_context)).opts.httpheader ≠
      some [("B: 2".data)] ∧
    (set_headers [("B: 2".data)] (set_headers [("A: 1".data)] fresh_context)).opts.httpheader =
      some [("A: 1".data), ("B: 2".data)] := by
  decide

/-- C2 (amended): a call that supplies a non-empty header list appends its
lines to the worker's existing slist and attaches the combined list, so the
attached list carries every header line supplied by this call and by all
earlier header-supplying calls on the same worker; entries are freed only at
context teardown, never before rebuilding. -/
theorem C2_header_list_accumulates (hs : List Str) (st : curl_thread_local) (h : hs ≠ []) :
    (set_headers hs st).header_chunk = st.header_chunk ++ hs ∧
    (set_headers hs st).opts.httpheader = some (st.header_chunk ++ hs) := by
  simp only [set_headers]
  rw [if_neg h]
  exact ⟨rfl, rfl⟩

/-- C2 witness: one concrete header-supplying call on a fresh context. -/
theorem C2_witness :
    (set_headers [("Accept: text/html".data)] fresh_context).opts.httpheader =
      some (fresh_context.header_chunk ++ [("Accept: text/html".data)]) :=
  (C2_header_list_accumulates [("Accept: text/html".data)] fresh_context (by decide)).2

/-- C3: when curl_easy_perform reports any outcome other than CURLE_OK or
CURLE_HTTP_RETURNED_ERROR, every public operation returns the
default-constructed response, whose status_code is 0 and whose headers, body,
encoding and url are all empty. -/
theorem C3_transport_failure_yields_default (p : Str → Option Str) (u body : Str)
    (headers : List Str) (form : List (Str × Str)) (e : EngineOutcome)
    (st : curl_thread_local)
    (h1 : e.code ≠ CURLE_OK) (h2 : e.code ≠ CURLE_HTTP_RETURNED_ERROR) :
    (get p u headers e st).1 = ({} : response_t) ∧
    (head p u headers e st).1 = ({} : response_t) ∧
    (post p u body headers e st).1 = ({} : response_t) ∧
    (post_form p u form headers e st).1 = ({} : response_t) ∧
    (put p u body headers e st).1 = ({} : response_t) ∧
    (patch p u body headers e st).1 = ({} : response_t) ∧
    (del p u body headers e st).1 = ({} : response_t) ∧
    ({} : response_t) = { status_code := 0, headers := [], body := [], encoding := [], url := [] } := by
  refine ⟨?_, ?_, ?_, ?_, ?_, ?_, ?_, rfl⟩ <;> exact request_fail _ _ h1 h2

/-- C3 witness: evaluation at CURLcode 6 (could not resolve host) on a fresh
context. -/
theorem C3_witness :
    (get (fun _ => none) ("http://unreachable.example".data) []
      { code := 6 } fresh_context).1 = ({} : response_t) :=
  (C3_transport_failure_yields_default (fun _ => none) ("http://unreachable.example".data) []
    [] [] { code := 6 } fresh_context (by decide) (by decide)).1

/-- C4 counterexample: get of the legacy version 0.0.1 implementation
(src/url.cpp) never sets CURLOPT_PROTOCOLS, so on a fresh per-thread context
the handle keeps the engine default instead of the HTTP-and-HTTPS
restriction; the claim, which quantifies over every public operation, fails
on that operation. -/
theorem C4_counterexample :
    (urlcpp.get_config ("http://example.com".data) [] fresh_context).opts.protocols = none ∧
    (urlcpp.get_config ("http://example.com".data) [] fresh_context).opts.protocols ≠
      some (CURLPROTO_HTTP ||| CURLPROTO_HTTPS) := by
  decide

/-- C4 (amended): in the module implementation (url.cxx) every public
operation sets CURLOPT_PROTOCOLS to exactly HTTP and HTTPS through
set_url_options before performing the transfer; request never modifies
handle options, so the restriction is still on the handle afterwards. -/
theorem C4_all_operations_restrict_protocols (p : Str → Option Str) (u body : Str)
    (headers : List Str) (form : List (Str × Str)) (e : EngineOutcome)
    (st : curl_thread_local) :
    (get p u headers e st).2.opts.protocols = some (CURLPROTO_HTTP ||| CURLPROTO_HTTPS) ∧
    (head p u headers e st).2.opts.protocols = some (CURLPROTO_HTTP ||| CURLPROTO_HTTPS) ∧
    (post p u body headers e st).2.opts.protocols = some (CURLPROTO_HTTP ||| CURLPROTO_HTTPS) ∧
    (post_form p u form headers e st).2.opts.protocols = some (CURLPROTO_HTTP ||| CURLPROTO_HTTPS) ∧
    (put p u body headers e st).2.opts.protocols = some (CURLPROTO_HTTP ||| CURLPROTO_HTTPS) ∧
    (patch p u body headers e st).2.opts.protocols = some (CURLPROTO_HTTP ||| CURLPROTO_HTTPS) ∧
    (del p u body headers e st).2.opts.protocols = some (CURLPROTO_HTTP ||| CURLPROTO_HTTPS) := by
  refine ⟨?_, ?_, ?_, ?_, ?_, ?_, ?_⟩ <;>
    simp [get, head, post, post_form, put, patch, del, update_opts_protocols, request_opts,
      set_headers_protocols, set_url_options]

/-- C5: each header_callback invocation appends exactly one new entry at the
end of the accumulator; a delivered line ending in carriage-return line-feed
is stored with exactly those two trailing characters removed, and any other
line is stored byte-for-byte unmodified. -/
theorem C5_header_callback_appends_stripped (acc : List Str) (buffer : Str) :
    (∀ r : Str, buffer = r ++ ['\r', '\n'] → header_callback acc buffer = acc ++ [r]) ∧
    ((¬ ∃ r : Str, buffer = r ++ ['\r', '\n']) → header_callback acc buffer = acc ++ [buffer]) := by
  constructor
  · rintro r rfl
    have hsuf : (['\r', '\n'] : Str).isSuffixOf (r ++ ['\r', '\n']) = true := by
      simp [List.isSuffixOf_iff_suffix]
    simp [header_callback, strip_crlf, hsuf]
  · intro h
    have hsuf : (['\r', '\n'] : Str).isSuffixOf buffer = false := by
      rw [Bool.eq_false_iff]
      intro hc
      rw [List.isSuffixOf_iff_suffix] at hc
      obtain ⟨t, ht⟩ := hc
      exact h ⟨t, ht.symm⟩
    simp [header_callback, strip_crlf, hsuf]

/-- C5 witness: one terminated and one unterminated delivery. -/
theorem C5_witness :
    header_callback [] (("x-a: 1".data) ++ ['\r', '\n']) = [] ++ [("x-a: 1".data)] ∧
    header_callback [("x-a: 1".data)] ['\r'] = [("x-a: 1".data)] ++ [['\r']] := by
  constructor
  · exact (C5_header_callback_appends_stripped [] _).1 ("x-a: 1".data) rfl
  · refine (C5_header_callback_appends_stripped [("x-a: 1".data)] ['\r']).2 ?_
    rintro ⟨r, hr⟩
    have hl := congrArg List.length hr
    simp [List.length_append] at hl

/-- C6: URL normalization is best-effort — when the engine parser rejects the
input, encode_url hands back the original string unchanged and
set_url_options installs it verbatim as the request URL; no error is
produced and the request still proceeds. -/
theorem C6_normalization_fallback (p : Str → Option Str) (u : Str)
    (st : curl_thread_local) (h : p u = none) :
    encode_url p u = u ∧ (set_url_options p u st).opts.url = u := by
  have he : encode_url p u = u := by
    unfold encode_url
    rw [h]
  exact ⟨he, by simp [set_url_options, he]⟩

/-- C6 witness: a parser that rejects everything leaves a malformed URL
untouched. -/
theorem C6_witness :
    encode_url (fun _ => none) ("ht!tp://bad url".data) = ("ht!tp://bad url".data) :=
  (C6_normalization_fallback (fun _ => none) ("ht!tp://bad url".data) fresh_context rfl).1

/-- C7: two sequential gets on the same worker are isolated — whatever the
first transfer delivered or left behind in the context, the second response's
headers are exactly the second transfer's delivered lines (stripped, in
delivery order) and its body exactly the concatenation of the second
transfer's chunks. -/
theorem C7_sequential_get_isolated (p : Str → Option Str) (u1 u2 : Str)
    (e1 e2 : EngineOutcome) (st : curl_thread_local)
    (h : e2.code = CURLE_OK ∨ e2.code = CURLE_HTTP_RETURNED_ERROR) :
    ((get p u2 [] e2 (get p u1 [] e1 st).2).1).headers = e2.header_lines.map strip_crlf ∧
    ((get p u2 [] e2 (get p u1 [] e1 st).2).1).body = accumulate_body e2.body_chunks := by
  exact ⟨request_fst_headers e2 _ h, request_fst_body e2 _ h⟩

/-- C7 witness: two concrete transfers through the same worker state; the
second response holds only the second transfer's header line and body. -/
theorem C7_witness :
    ((get (fun _ => none) ("http://b.example".data) []
        { code := 0, response_code := 200, body_chunks := [("second".data)],
          header_lines := [(("h2: b".data) ++ ['\r', '\n'])] }
        (get (fun _ => none) ("http://a.example".data) []
          { code := 0, response_code := 200, body_chunks := [("first".data)],
            header_lines := [(("h1: a".data) ++ ['\r', '\n'])] }
          fresh_context).2).1).headers = [("h2: b".data)] := by
  rw [(C7_sequential_get_isolated (fun _ => none) ("http://a.example".data)
    ("http://b.example".data)
    { code := 0, response_code := 200, body_chunks := [("first".data)],
      header_lines := [(("h1: a".data) ++ ['\r', '\n'])] }
    { code := 0, response_code := 200, body_chunks := [("second".data)],
      header_lines := [(("h2: b".data) ++ ['\r', '\n'])] }
    fresh_context (Or.inl rfl)).1]
  decide

/-- C8: the bool conversion of response_t holds exactly when the status code
lies in the interval from 100 inclusive to 400 exclusive, so every 3xx status
counts as success while 0 and every 4xx or 5xx status count as failure. -/
theorem C8_success_predicate (r : response_t) :
    r.toBool = true ↔ (100 ≤ r.status_code ∧ r.status_code < 400) := by
  simp [response_t.toBool]

/-- C8 witness: a 302 is a success and a 404 is not. -/
theorem C8_witness :
    ({ status_code := 302 } : response_t).toBool = true ∧
    ¬ ({ status_code := 404 } : response_t).toBool = true := by
  constructor
  · exact (C8_success_predicate ({ status_code := 302 } : response_t)).2 ⟨by decide, by decide⟩
  · intro hb
    exact absurd ((C8_success_predicate ({ status_code := 404 } : response_t)).1 hb).2 (by decide)

/-- C9: no operation resets the handle options, so options survive onto later
calls on the same worker — NOBODY set by head is still set after a following
get or post, the custom method of del, put or patch is still set after a
following get or post, and the payload attached by post is still attached
after a following body-less get. -/
theorem C9_options_persist_across_calls (p : Str → Option Str) (u1 u2 b1 b2 : Str)
    (hs1 hs2 : List Str) (e1 e2 : EngineOutcome) (st : curl_thread_local) :
    (get p u2 hs2 e2 (head p u1 hs1 e1 st).2).2.opts.nobody = true ∧
    (post p u2 b2 hs2 e2 (head p u1 hs1 e1 st).2).2.opts.nobody = true ∧
    (get p u2 hs2 e2 (del p u1 b1 hs1 e1 st).2).2.opts.customrequest = some ("DELETE".data) ∧
    (post p u2 b2 hs2 e2 (put p u1 b1 hs1 e1 st).2).2.opts.customrequest = some ("PUT".data) ∧
    (get p u2 hs2 e2 (patch p u1 b1 hs1 e1 st).2).2.opts.customrequest = some ("PATCH".data) ∧
    (get p u2 hs2 e2 (post p u1 b1 hs1 e1 st).2).2.opts.postfields = some b1 := by
  refine ⟨?_, ?_, ?_, ?_, ?_, ?_⟩
  · rw [get_opts_nobody, head_opts_nobody]
  · rw [post_opts_nobody, head_opts_nobody]
  · rw [get_opts_customrequest]
    simp only [del]
    exact update_opts_customrequest p u1 ("DELETE".data) b1 hs1 e1 st
  · rw [post_opts_customrequest]
    simp only [put]
    exact update_opts_customrequest p u1 ("PUT".data) b1 hs1 e1 st
  · rw [get_opts_customrequest]
    simp only [patch]
    exact update_opts_customrequest p u1 ("PATCH".data) b1 hs1 e1 st
  · rw [get_opts_postfields]
    exact post_opts_postfields p u1 b1 hs1 e1 st

/-- C10: and_then and or_else of response_t — when the bool conversion fails,
and_then yields the value-initialized result of f's result type and or_else
yields f invoked with no arguments; when it holds, and_then yields f applied
to the response and or_else yields the response unchanged. -/
theorem C10_and_then_or_else {β : Type} [Inhabited β] (r : response_t)
    (f : response_t → β) (g : Unit → response_t) :
    (r.toBool = false → r.and_then f = (default : β) ∧ r.or_else g = g ()) ∧
    (r.toBool = true → r.and_then f = f r ∧ r.or_else g = r) := by
  constructor <;> intro h <;>
    simp [response_t.and_then, response_t.or_else, h]

/-- C10 witness: the default (failing) response short-circuits and a 200
response propagates. -/
theorem C10_witness :
    (({} : response_t).and_then (fun r => r.status_code) = 0 ∧
      ({} : response_t).or_else (fun _ => ({ status_code := 200 } : response_t)) =
        ({ status_code := 200 } : response_t)) ∧
    (({ status_code := 200 } : response_t).and_then (fun r => r.status_code) = 200 ∧
      ({ status_code := 200 } : response_t).or_else (fun _ => ({} : response_t)) =
        ({ status_code := 200 } : response_t)) := by
  constructor
  · exact (C10_and_then_or_else ({} : response_t) (fun r => r.status_code)
      (fun _ => ({ status_code := 200 } : response_t))).1 (by decide)
  · exact (C10_and_then_or_else ({ status_code := 200 } : response_t)
      (fun r => r.status_code) (fun _ => ({} : response_t))).2 (by decide)

end url
